import Mathlib

/-!
Verification of the TradingView screenshot pipeline
(`config.py`, `tradingview_scraper.py`, `screenshot_pipeline.py`).

The Python source is shallowly embedded: the external browser engine is
modelled by an oracle (`PageBehavior`) saying which of the awaited browser
operations of one capture attempt raise an exception, and each Python
routine becomes a total Lean function over that oracle.  A Python call
that may raise is given result type `PyResult`; `try/except/finally`
becomes an explicit case split on the oracle, exactly following the
source's control flow.  Page `close` and browser `close` are modelled as
non-raising collaborator operations (the source installs no handler for
them and the spec treats them as opaque reliable collaborators).
-/

set_option autoImplicit false

/-- Result of running a Python routine: either it returned a value or an
exception escaped it. -/
inductive PyResult (α : Type) where
  | returned (a : α)
  | raised (msg : String)
  deriving DecidableEq, Repr

/-- Configuration constant from `config.py`: the screenshots output
directory (`SCREENSHOTS_DIR = BASE_DIR / "screenshots"`; the
deployment-dependent `BASE_DIR` component is taken as the root). -/
def SCREENSHOTS_DIR : String := "screenshots"

/-- Path joining, `dir / filename` on `pathlib` paths. -/
def pathJoin (dir filename : String) : String := dir ++ "/" ++ filename

/-- Configuration constant from `config.py`: the symbol-to-URL mapping
`CRYPTO_SYMBOLS`, in dict insertion order. -/
def CRYPTO_SYMBOLS : List (String × String) :=
  [("BTC", "https://www.tradingview.com/chart/?symbol=BINANCE%3ABTCUSDT"),
   ("ETH", "https://www.tradingview.com/chart/?symbol=BINANCE%3AETHUSDT"),
   ("SOL", "https://www.tradingview.com/chart/?symbol=BINANCE%3ASOLUSDT")]

/-- Configuration constant from `config.py`: the scheduling interval in
minutes. -/
def SCREENSHOT_INTERVAL_MINUTES : Nat := 1

/-- A wall-clock instant as `datetime.now()` observes it, at seconds
resolution (the resolution the configured format keeps). -/
structure Datetime where
  year : Nat
  month : Nat
  day : Nat
  hour : Nat
  minute : Nat
  second : Nat
  deriving DecidableEq, Repr

/-- Zero-pad a numeral to two digits, as `strftime` does for
`%m %d %H %M %S`. -/
def pad2 (n : Nat) : String :=
  if n < 10 then "0" ++ toString n else toString n

/-- Zero-pad a numeral to four digits, as `strftime` does for `%Y`. -/
def pad4 (n : Nat) : String :=
  if n < 10 then "000" ++ toString n
  else if n < 100 then "00" ++ toString n
  else if n < 1000 then "0" ++ toString n
  else toString n

/-- `datetime.now().strftime(TIMESTAMP_FORMAT)` with
`TIMESTAMP_FORMAT = "%Y%m%d_%H%M%S"` from `config.py`. -/
def formatTimestamp (t : Datetime) : String :=
  pad4 t.year ++ pad2 t.month ++ pad2 t.day ++ "_" ++
    pad2 t.hour ++ pad2 t.minute ++ pad2 t.second

/-- File path written by one successful capture
(`tradingview_scraper.py`, lines 109-111):
`SCREENSHOTS_DIR / f"\x7bsymbol\x7d_\x7btimestamp\x7d.png"`. -/
def screenshotPath (symbol : String) (now : Datetime) : String :=
  pathJoin SCREENSHOTS_DIR (symbol ++ "_" ++ formatTimestamp now ++ ".png")

/-- Oracle for the fallible awaited browser operations of one capture
attempt in `capture_screenshot`; `true` means the operation completes
without raising.  `waitSelectorOk` and `evaluateOk` are the operations
guarded by the local `try/except` of `_wait_for_chart_load` and
`_configure_chart_view`. -/
structure PageBehavior where
  newPageOk : Bool
  viewportOk : Bool
  gotoOk : Bool
  waitSelectorOk : Bool
  evaluateOk : Bool
  screenshotOk : Bool
  deriving DecidableEq, Repr

/-- The behavior in which every browser operation succeeds. -/
def allOk : PageBehavior := ⟨true, true, true, true, true, true⟩

/-- The message of the `RuntimeError` raised by `capture_screenshot` when
`self.browser` is `None` (`tradingview_scraper.py`, line 91). -/
def browserNotInitializedMsg : String :=
  "Browser not initialized. Call start_browser() first."

/-- Everything observable about one `capture_screenshot` invocation:
its Python result, whether a page object was created, whether
`page.close()` was invoked on it, and whether the `except` clause logged
an error. -/
structure CaptureRun where
  result : PyResult (Option String)
  pageCreated : Bool
  pageClosed : Bool
  errorLogged : Bool
  deriving DecidableEq, Repr

/-- `TradingViewScraper.capture_screenshot` (`tradingview_scraper.py`,
lines 89-125).  Raises `RuntimeError` when no browser exists; otherwise
runs `new_page`, `set_viewport_size`, `goto`, the two best-effort steps
(whose own exceptions are caught locally and only logged), and
`screenshot`, returning the file path; any exception in that `try` body
is caught, logged, and turned into `None`; the `finally` clause closes
the page whenever one was created. -/
def capture_screenshot (browserLive : Bool) (beh : PageBehavior)
    (symbol : String) (url : String) (now : Datetime) : CaptureRun :=
  if !browserLive then
    ⟨.raised browserNotInitializedMsg, false, false, false⟩
  else if !beh.newPageOk then
    -- new_page raised before `page` was assigned: except returns None,
    -- finally sees `page is None` and closes nothing
    ⟨.returned none, false, false, true⟩
  else if !beh.viewportOk then
    ⟨.returned none, true, true, true⟩
  else if !beh.gotoOk then
    ⟨.returned none, true, true, true⟩
  else
    -- _wait_for_chart_load and _configure_chart_view never let an
    -- exception escape (their failures are logged warnings), so
    -- beh.waitSelectorOk and beh.evaluateOk do not change the path
    if !beh.screenshotOk then
      ⟨.returned none, true, true, true⟩
    else
      ⟨.returned (some (screenshotPath symbol now)), true, true, false⟩

/-- Outcome recorded by the aggregator loop body for one symbol: the
`try/except` around `capture_screenshot(symbol, url)` in
`capture_all_screenshots` maps an escaping exception to `None`. -/
def aggOutcome (browserLive : Bool) (beh : String → PageBehavior)
    (now : Datetime) (symbol url : String) : Option String :=
  match (capture_screenshot browserLive (beh symbol) symbol url now).result with
  | .returned v => v
  | .raised _ => none

/-- The `for symbol, url in CRYPTO_SYMBOLS.items()` loop of
`capture_all_screenshots`, with `results` the accumulator dict built by
`results[symbol] = ...` insertions in iteration order. -/
def capture_all_loop (browserLive : Bool) (beh : String → PageBehavior)
    (now : Datetime) :
    List (String × String) → List (String × Option String) →
      List (String × Option String)
  | [], results => results
  | (symbol, url) :: rest, results =>
      capture_all_loop browserLive beh now rest
        (results ++ [(symbol, aggOutcome browserLive beh now symbol url)])

/-- `TradingViewScraper.capture_all_screenshots` (`tradingview_scraper.py`,
lines 127-139), generalized over the symbol list it iterates (the source
iterates `CRYPTO_SYMBOLS`).  The loop body catches every exception, so
the routine itself never raises and its result is a plain mapping. -/
def capture_all_screenshots (browserLive : Bool) (beh : String → PageBehavior)
    (now : Datetime) (symbols : List (String × String)) :
    List (String × Option String) :=
  capture_all_loop browserLive beh now symbols []

/-- State of a `TradingViewScraper` object: its `self.browser` field,
`None` until `start_browser` assigns a launched browser instance
(identified here by a numeral). -/
structure ScraperState where
  browser : Option Nat
  deriving DecidableEq, Repr

/-- Observable collaborator calls made while shutting down. -/
inductive BrowserEvent where
  | browserClosed (b : Nat)
  deriving DecidableEq, Repr

/-- `TradingViewScraper.close_browser` (`tradingview_scraper.py`, lines
51-55): `if self.browser: await self.browser.close()`.  Note the source
does not reset `self.browser` to `None` after closing. -/
def close_browser (st : ScraperState) : ScraperState × List BrowserEvent :=
  match st.browser with
  | some b => (st, [BrowserEvent.browserClosed b])
  | none => (st, [])

/-- Job registration data passed to `scheduler.add_job` in
`ScreenshotPipeline.start` (`screenshot_pipeline.py`, lines 91-97). -/
structure JobConfig where
  jobId : String
  intervalMinutes : Nat
  maxInstances : Nat
  deriving DecidableEq, Repr

/-- The one job the pipeline registers: interval trigger of
`SCREENSHOT_INTERVAL_MINUTES`, id `screenshot_job`, `max_instances=1`. -/
def screenshotJob : JobConfig :=
  ⟨"screenshot_job", SCREENSHOT_INTERVAL_MINUTES, 1⟩

/-- State of a `ScreenshotPipeline` object: its scraper, whether the
scheduler is running, the jobs registered on the scheduler, and the
`self.running` flag. -/
structure PipelineState where
  scraper : ScraperState
  schedulerRunning : Bool
  jobs : List JobConfig
  running : Bool
  deriving DecidableEq, Repr

/-- The pipeline state right after `ScreenshotPipeline.__init__`. -/
def initPipelineState : PipelineState :=
  ⟨⟨none⟩, false, [], false⟩

/-- `ScreenshotPipeline.stop` (`screenshot_pipeline.py`, lines 120-129):
shuts the scheduler down if it is running, then calls
`self.scraper.close_browser()`. -/
def pipeline_stop (st : PipelineState) : PipelineState × List BrowserEvent :=
  let st1 := if st.schedulerRunning then { st with schedulerRunning := false } else st
  let closed := close_browser st1.scraper
  ({ st1 with scraper := closed.1 }, closed.2)

/-- How one `ScreenshotPipeline.start` invocation ended with respect to
its caller: it either returned normally or let an exception escape. -/
inductive StartOutcome where
  | completedNormally
  | raisedToCaller (msg : String)
  deriving DecidableEq, Repr

/-- `ScreenshotPipeline.start` (`screenshot_pipeline.py`, lines 82-118),
with `launchOk` the oracle for whether `start_browser`'s browser launch
succeeds.  The whole body is wrapped in
`try ... except KeyboardInterrupt ... except Exception ... finally: stop()`:
a launch failure re-raised by `start_browser` is caught by the
`except Exception` clause and only logged; on the success path the job is
registered, the scheduler started, `self.running` set, the initial
capture job run (`capture_screenshots_job` catches its own exceptions),
and the idle `while self.running` loop sleeps until the signal handler
clears `self.running`; in every case the `finally` clause runs `stop()`
and `start` returns normally. -/
def pipeline_start (launchOk : Bool) : PipelineState × List BrowserEvent × StartOutcome :=
  if launchOk then
    let st1 := { initPipelineState with scraper := ⟨some 0⟩ }
    let st2 := { st1 with jobs := st1.jobs ++ [screenshotJob],
                          schedulerRunning := true, running := true }
    -- initial capture_screenshots_job: never raises, pipeline state unchanged
    -- idle loop: exits once the signal handler clears self.running
    let st3 := { st2 with running := false }
    let stopped := pipeline_stop st3
    (stopped.1, stopped.2, .completedNormally)
  else
    -- start_browser raised; except Exception logs it, finally runs stop()
    let stopped := pipeline_stop initPipelineState
    (stopped.1, stopped.2, .completedNormally)

/-- Exit status of the process for `python screenshot_pipeline.py`
(`screenshot_pipeline.py`, lines 138-145): `sys.exit(1)` fires only when
an exception escapes `asyncio.run(main())`, i.e. escapes
`pipeline.start()`. -/
def mainExitCode (launchOk : Bool) : Nat :=
  match (pipeline_start launchOk).2.2 with
  | .completedNormally => 0
  | .raisedToCaller _ => 1

/-- Events acting on the set of in-flight aggregation runs after
`scheduler.start()` (`screenshot_pipeline.py`, line 100): the pipeline's
inline initial run starting (the direct `await
self.capture_screenshots_job()` call at line 107, which is not a
scheduler job instance) and finishing, an interval tick of the
registered job firing, and a scheduler-started job instance finishing.
The tick and job-instance semantics are modelled from the spec, since
the scheduling collaborator (apscheduler) is an external library, not
code of this repository: spec section 6 gives its interface as
`add-interval-job(callback, period, max-concurrency=1)` and section 4.3
its policy that a tick fires a new job instance only when fewer than
`max_instances` instances of that job are in flight, otherwise the tick
is skipped. -/
inductive RunEvent where
  | initialRunStart
  | initialRunDone
  | tick
  | schedJobDone
  deriving DecidableEq, Repr

/-- Aggregation runs in flight: whether the inline initial run is still
executing, and how many scheduler-started instances of the registered
job are executing. -/
structure SchedState where
  initialInFlight : Bool
  schedInFlight : Nat
  deriving DecidableEq, Repr

/-- One event acting on the in-flight runs, for a job registered with
configuration `cfg`.  Modelled from the spec on the scheduler side: a
tick starts a new instance only when fewer than `cfg.maxInstances`
scheduler-started instances are in flight; the inline initial run is
invisible to this accounting because it is not a job instance. -/
def schedStep (cfg : JobConfig) (st : SchedState) : RunEvent → SchedState
  | .initialRunStart => { st with initialInFlight := true }
  | .initialRunDone => { st with initialInFlight := false }
  | .tick =>
      if st.schedInFlight < cfg.maxInstances then
        { st with schedInFlight := st.schedInFlight + 1 }
      else st
  | .schedJobDone => { st with schedInFlight := st.schedInFlight - 1 }

/-- In-flight runs after a history of events, from the state right after
`scheduler.start()`: nothing in flight yet. -/
def schedRun (cfg : JobConfig) (events : List RunEvent) : SchedState :=
  events.foldl (schedStep cfg) ⟨false, 0⟩

/-- Total number of aggregation runs in flight. -/
def totalInFlight (st : SchedState) : Nat :=
  (if st.initialInFlight then 1 else 0) + st.schedInFlight

/-- Condition under which the `try` body of `capture_screenshot` runs to
completion: all four operations that can abort the capture succeed (the
two best-effort steps cannot abort it). -/
def captureOk (beh : PageBehavior) : Bool :=
  beh.newPageOk && beh.viewportOk && beh.gotoOk && beh.screenshotOk

/-- A sample wall-clock instant used to evaluate the model on concrete
inputs. -/
def sampleNow : Datetime := ⟨2026, 10, 12, 3, 4, 5⟩

theorem capture_all_loop_eq (live : Bool) (beh : String → PageBehavior)
    (now : Datetime) :
    ∀ (symbols : List (String × String)) (acc : List (String × Option String)),
      capture_all_loop live beh now symbols acc
        = acc ++ symbols.map (fun su => (su.1, aggOutcome live beh now su.1 su.2)) := by
  intro symbols
  induction symbols with
  | nil => intro acc; simp [capture_all_loop]
  | cons hd tl ih =>
      intro acc
      obtain ⟨symbol, url⟩ := hd
      simp [capture_all_loop, ih]

theorem capture_all_eq_map (live : Bool) (beh : String → PageBehavior)
    (now : Datetime) (symbols : List (String × String)) :
    capture_all_screenshots live beh now symbols
      = symbols.map (fun su => (su.1, aggOutcome live beh now su.1 su.2)) := by
  simpa using capture_all_loop_eq live beh now symbols []

/-- C1: one invocation of `capture_all_screenshots` over any configured
symbol set with pairwise-distinct names returns a mapping whose key list
is exactly the configured symbol names, each appearing exactly once,
regardless of the browser state and of which individual captures succeed
or fail. -/
theorem capture_all_key_set (live : Bool) (beh : String → PageBehavior)
    (now : Datetime) (symbols : List (String × String))
    (hnodup : (symbols.map Prod.fst).Nodup) :
    (capture_all_screenshots live beh now symbols).map Prod.fst
        = symbols.map Prod.fst
      ∧ ((capture_all_screenshots live beh now symbols).map Prod.fst).Nodup := by
  have hkeys : (capture_all_screenshots live beh now symbols).map Prod.fst
      = symbols.map Prod.fst := by
    simp [capture_all_eq_map]
  exact ⟨hkeys, hkeys ▸ hnodup⟩

/-- Witness for C1 on the configured `CRYPTO_SYMBOLS` with a live browser
and all operations succeeding. -/
theorem capture_all_key_set_witness :
    (CRYPTO_SYMBOLS.map Prod.fst).Nodup
      ∧ ((capture_all_screenshots true (fun _ => allOk) sampleNow CRYPTO_SYMBOLS).map Prod.fst
            = CRYPTO_SYMBOLS.map Prod.fst
          ∧ ((capture_all_screenshots true (fun _ => allOk) sampleNow CRYPTO_SYMBOLS).map
              Prod.fst).Nodup) :=
  ⟨by decide, capture_all_key_set true (fun _ => allOk) sampleNow CRYPTO_SYMBOLS (by decide)⟩

/-- C2: when the capture of one symbol raises an exception, the
aggregator records that symbol's outcome as `None` and still processes
every preceding and subsequent symbol exactly as it otherwise would: one
symbol's failure never terminates the run. -/
theorem capture_failure_isolated (live : Bool) (beh : String → PageBehavior)
    (now : Datetime) (pre post : List (String × String)) (s u m : String)
    (hraise : (capture_screenshot live (beh s) s u now).result = PyResult.raised m) :
    capture_all_screenshots live beh now (pre ++ (s, u) :: post)
      = capture_all_screenshots live beh now pre
          ++ (s, none) :: capture_all_screenshots live beh now post := by
  have houtcome : aggOutcome live beh now s u = none := by
    simp [aggOutcome, hraise]
  simp [capture_all_eq_map, houtcome]

/-- Witness for C2: with no browser the middle symbol's capture raises
the initialization error, yet the run records it as `None` and the last
symbol is still attempted. -/
theorem capture_failure_isolated_witness :
    (capture_screenshot false allOk "ETH" "u2" sampleNow).result
        = PyResult.raised browserNotInitializedMsg
      ∧ capture_all_screenshots false (fun _ => allOk) sampleNow
            ([("BTC", "u1")] ++ ("ETH", "u2") :: [("SOL", "u3")])
          = capture_all_screenshots false (fun _ => allOk) sampleNow [("BTC", "u1")]
              ++ ("ETH", none) ::
                capture_all_screenshots false (fun _ => allOk) sampleNow [("SOL", "u3")] :=
  ⟨rfl, capture_failure_isolated false (fun _ => allOk) sampleNow
    [("BTC", "u1")] [("SOL", "u3")] "ETH" "u2" browserNotInitializedMsg rfl⟩

/-- C9: with no browser ever started, `capture_all_screenshots` does not
raise (it is a total mapping in the model because the loop body catches
every exception) and maps every configured symbol to `None`. -/
theorem capture_all_no_browser (beh : String → PageBehavior) (now : Datetime)
    (symbols : List (String × String)) :
    capture_all_screenshots false beh now symbols
      = symbols.map (fun su => (su.1, (none : Option String))) := by
  simp [capture_all_eq_map, aggOutcome, capture_screenshot]

/-- C4: whenever a `capture_screenshot` invocation created a page, the
`finally` clause closes it, on the success path, the heuristic-failure
paths, and every exception path alike. -/
theorem capture_page_closed (live : Bool) (beh : PageBehavior)
    (symbol url : String) (now : Datetime)
    (hcreated : (capture_screenshot live beh symbol url now).pageCreated = true) :
    (capture_screenshot live beh symbol url now).pageClosed = true := by
  obtain ⟨np, vp, gt, ws, ev, sc⟩ := beh
  cases live <;> cases np <;> cases vp <;> cases gt <;> cases sc <;>
    simp_all [capture_screenshot]

/-- Witness for C4 on the all-success path with a live browser. -/
theorem capture_page_closed_witness :
    (capture_screenshot true allOk "BTC" "u1" sampleNow).pageCreated = true
      ∧ (capture_screenshot true allOk "BTC" "u1" sampleNow).pageClosed = true :=
  ⟨rfl, capture_page_closed true allOk "BTC" "u1" sampleNow rfl⟩

/-- C5: `capture_screenshot` raises the initialization `RuntimeError`
exactly when no live browser exists, and that is the only exception it
can let escape: with a live browser it raises nothing. -/
theorem capture_init_error_iff (live : Bool) (beh : PageBehavior)
    (symbol url : String) (now : Datetime) :
    ((capture_screenshot live beh symbol url now).result
        = PyResult.raised browserNotInitializedMsg ↔ live = false)
      ∧ ((∃ m, (capture_screenshot live beh symbol url now).result = PyResult.raised m)
          ↔ live = false) := by
  obtain ⟨np, vp, gt, ws, ev, sc⟩ := beh
  cases live <;> cases np <;> cases vp <;> cases gt <;> cases sc <;>
    simp [capture_screenshot]

/-- C6: with a live browser, `capture_screenshot` returns the screenshot
file path exactly when all fallible capture operations succeed; on any
exception after the browser check it returns `None` with the exception
logged, and it never lets an exception escape. -/
theorem capture_live_result (live : Bool) (beh : PageBehavior)
    (symbol url : String) (now : Datetime) (hlive : live = true) :
    ((capture_screenshot live beh symbol url now).result
        = PyResult.returned (some (screenshotPath symbol now)) ↔ captureOk beh = true)
      ∧ (captureOk beh = false →
          (capture_screenshot live beh symbol url now).result = PyResult.returned none
            ∧ (capture_screenshot live beh symbol url now).errorLogged = true)
      ∧ ∀ m, (capture_screenshot live beh symbol url now).result ≠ PyResult.raised m := by
  subst hlive
  obtain ⟨np, vp, gt, ws, ev, sc⟩ := beh
  cases np <;> cases vp <;> cases gt <;> cases sc <;>
    simp [capture_screenshot, captureOk]

/-- Witness for C6 with a live browser and the all-success behavior. -/
theorem capture_live_result_witness :
    true = true
      ∧ (((capture_screenshot true allOk "BTC" "u1" sampleNow).result
            = PyResult.returned (some (screenshotPath "BTC" sampleNow))
              ↔ captureOk allOk = true)
          ∧ (captureOk allOk = false →
              (capture_screenshot true allOk "BTC" "u1" sampleNow).result
                  = PyResult.returned none
                ∧ (capture_screenshot true allOk "BTC" "u1" sampleNow).errorLogged = true)
          ∧ ∀ m, (capture_screenshot true allOk "BTC" "u1" sampleNow).result
              ≠ PyResult.raised m) :=
  ⟨rfl, capture_live_result true allOk "BTC" "u1" sampleNow rfl⟩

/-- C7: every successful capture's returned path is exactly the
configured output directory joined with a filename of the form
`symbol`, underscore, the timestamp in the configured seconds-resolution
format, and extension `.png`. -/
theorem capture_success_path_format (live : Bool) (beh : PageBehavior)
    (symbol url : String) (now : Datetime) (p : String)
    (hp : (capture_screenshot live beh symbol url now).result
        = PyResult.returned (some p)) :
    p = pathJoin SCREENSHOTS_DIR (symbol ++ "_" ++ formatTimestamp now ++ ".png") := by
  obtain ⟨np, vp, gt, ws, ev, sc⟩ := beh
  cases live <;> cases np <;> cases vp <;> cases gt <;> cases sc <;>
    simp_all [capture_screenshot, screenshotPath]

/-- Witness for C7 on a concrete successful capture. -/
theorem capture_success_path_format_witness :
    (capture_screenshot true allOk "BTC" "u1" sampleNow).result
        = PyResult.returned (some (screenshotPath "BTC" sampleNow))
      ∧ screenshotPath "BTC" sampleNow
          = pathJoin SCREENSHOTS_DIR ("BTC" ++ "_" ++ formatTimestamp sampleNow ++ ".png") :=
  ⟨rfl, capture_success_path_format true allOk "BTC" "u1" sampleNow
    (screenshotPath "BTC" sampleNow) rfl⟩

/-- C3 counterexample: when the browser fails to launch, `start` catches
the exception itself and returns normally, so nothing escapes to
`__main__` and the process exit status is `0`, not non-zero. -/
theorem launch_failure_exit_status_zero :
    (pipeline_start false).2.2 = StartOutcome.completedNormally
      ∧ mainExitCode false = 0 :=
  ⟨rfl, rfl⟩

/-- C3 (amended): a browser launch failure during the starting phase is
caught by the `except Exception` clause inside `start` itself: the
failure is logged, the `finally` clause runs `stop()` (whose browser
close is a no-op since no browser was assigned), no exception propagates
to the caller, and the process exits with status `0`. -/
theorem launch_failure_caught_in_start :
    pipeline_start false = (initPipelineState, [], StartOutcome.completedNormally)
      ∧ mainExitCode false = 0 :=
  ⟨rfl, rfl⟩

theorem schedInFlight_bounded_aux (events : List RunEvent) :
    ∀ st : SchedState, st.schedInFlight ≤ 1 →
      (List.foldl (schedStep screenshotJob) st events).schedInFlight ≤ 1 := by
  induction events with
  | nil => intro st h; simpa using h
  | cons e rest ih =>
      intro st h
      apply ih
      cases e with
      | initialRunStart => simpa [schedStep] using h
      | initialRunDone => simpa [schedStep] using h
      | tick =>
          simp only [schedStep]
          have hmax : screenshotJob.maxInstances = 1 := rfl
          rw [hmax]
          split
          · simp
            omega
          · exact h
      | schedJobDone =>
          simp only [schedStep]
          omega

/-- C8 counterexample: the pipeline starts its initial aggregation run
inline, outside the scheduler's `max_instances` accounting; in the
reachable history where that run is still unfinished when the first
interval tick fires, the scheduler sees no instance of its job in flight
and starts one, so two aggregation runs are in flight at once,
contradicting the claimed bound of one. -/
theorem initial_run_overlaps_first_tick :
    totalInFlight (schedRun screenshotJob
        [RunEvent.initialRunStart, RunEvent.tick]) = 2
      ∧ ¬ totalInFlight (schedRun screenshotJob
          [RunEvent.initialRunStart, RunEvent.tick]) ≤ 1 := by
  decide

/-- C8 (amended): the `max_instances=1` policy keeps at most one
SCHEDULER-STARTED aggregation run in flight over any event history — a
tick firing while a scheduler-started run is unfinished starts no second
job instance and changes nothing — but the inline initial run at startup
is outside this accounting, so the total number of in-flight aggregation
runs is bounded by two rather than one. -/
theorem scheduler_single_flight_scheduled :
    (∀ events : List RunEvent, (schedRun screenshotJob events).schedInFlight ≤ 1)
      ∧ (∀ st : SchedState, st.schedInFlight = 1 →
          schedStep screenshotJob st RunEvent.tick = st)
      ∧ ∀ events : List RunEvent, totalInFlight (schedRun screenshotJob events) ≤ 2 := by
  have hbound : ∀ events : List RunEvent,
      (schedRun screenshotJob events).schedInFlight ≤ 1 := by
    intro events
    simpa [schedRun] using schedInFlight_bounded_aux events ⟨false, 0⟩ (by decide)
  refine ⟨hbound, ?_, ?_⟩
  · intro st h
    simp [schedStep, screenshotJob, h]
  · intro events
    have hsched := hbound events
    unfold totalInFlight
    split <;> omega

/-- Witness for the amended C8: a tick firing while one scheduler-started
run is in flight leaves the state unchanged. -/
theorem scheduler_single_flight_scheduled_witness :
    (⟨true, 1⟩ : SchedState).schedInFlight = 1
      ∧ schedStep screenshotJob ⟨true, 1⟩ RunEvent.tick = ⟨true, 1⟩ :=
  ⟨rfl, scheduler_single_flight_scheduled.2.1 ⟨true, 1⟩ rfl⟩

/-- C10: `close_browser` with no browser instance is a no-op that raises
nothing and leaves the scraper state unchanged, so `stop` is safe before
any browser was started: it returns the pipeline state with only the
scheduler flag possibly cleared and performs no browser close call. -/
theorem close_browser_no_op (st : ScraperState) (h : st.browser = none) :
    close_browser st = (st, [])
      ∧ ∀ (sr : Bool) (jobs : List JobConfig) (r : Bool),
          (pipeline_stop ⟨st, sr, jobs, r⟩).1.scraper = st
            ∧ (pipeline_stop ⟨st, sr, jobs, r⟩).2 = [] := by
  obtain ⟨b⟩ := st
  subst h
  refine ⟨rfl, ?_⟩
  intro sr jobs r
  cases sr <;> simp [pipeline_stop, close_browser]

/-- Witness for C10 on the fresh scraper state. -/
theorem close_browser_no_op_witness :
    (⟨none⟩ : ScraperState).browser = none
      ∧ (close_browser ⟨none⟩ = (⟨none⟩, [])
          ∧ ∀ (sr : Bool) (jobs : List JobConfig) (r : Bool),
              (pipeline_stop ⟨⟨none⟩, sr, jobs, r⟩).1.scraper = (⟨none⟩ : ScraperState)
                ∧ (pipeline_stop ⟨⟨none⟩, sr, jobs, r⟩).2 = []) :=
  ⟨rfl, close_browser_no_op ⟨none⟩ rfl⟩
